import Mathlib

/-!
Shallow embedding of the reassignment / status-sync workflow of the
Zendesk dashboard app (frontend): the request gateway
(`frontend/public/assets/index.js`, `req` / `getTickets` / `patchTicket` /
`addComment`), the ticket collection hook (`frontend/hooks/useTickets.js`),
the row reassignment handler (`TicketRow.jsx`) and the notes editor
(`NotesEditor.jsx`).  Definitions are translated directly from the
JavaScript source; theorems settle the frozen claims about them.
-/

namespace ZendeskApp

/-! ## JavaScript values used in request bodies

A PATCH/POST body is a JS object literal.  Objects are embedded as
key/value cons chains so that structural equality stays decidable. -/

inductive JsVal where
  | num (n : Nat)
  | str (s : String)
  | jsBool (b : Bool)
  | nan
  | objNil
  | objCons (key : String) (value : JsVal) (rest : JsVal)
deriving DecidableEq, Repr

/-- Property lookup on an (embedded) JS object: `v[key]`. -/
def JsVal.lookup : JsVal → String → Option JsVal
  | .objCons k v r, key => if k = key then some v else r.lookup key
  | _, _ => none

/-- Model of `Number(s)` for the strings this app feeds it (option values):
a natural-number literal parses, anything else is `NaN`. -/
def jsNumber (s : String) : JsVal :=
  match s.toNat? with
  | some n => .num n
  | none => .nan

/-! ## Request Gateway (`req` in `frontend/public/assets/index.js`)

The error object thrown by `req` is `{ status, message }`; errors coming
out of `fetch` itself (network failure, or the 30 s abort) carry no
`status` field. -/

structure ReqError where
  status : Option Nat
  message : String
deriving DecidableEq, Repr

/-- One network attempt, as observed by `req`:
* `ok v` — `fetch` resolved with `res.ok`, `res.json()` gave `v`;
* `httpErr status statusText bodyText` — `fetch` resolved non-ok;
  `bodyText = some t` means `res.text()` succeeded returning `t`,
  `none` means `res.text()` threw;
* `netErr msg` — `fetch` rejected (network error or abort/timeout),
  with an error whose `.message` is `msg` and which has no `.status`. -/
inductive Attempt where
  | ok (v : Nat)
  | httpErr (status : Nat) (statusText : String) (bodyText : Option String)
  | netErr (msg : String)
deriving DecidableEq, Repr

/-- The non-ok branch of `req`: `detail` is `res.text()` when that call
succeeds, else `res.statusText`; the thrown error is
`{ status: res.status, message: detail || "Request failed" }`. -/
def httpErrorOf (status : Nat) (statusText : String) (bodyText : Option String) :
    ReqError :=
  let detail := match bodyText with
    | some t => t
    | none => statusText
  ⟨some status, if detail = "" then "Request failed" else detail⟩

/-- Result of a whole `req` call. -/
inductive Outcome where
  | success (v : Nat)
  | failure (e : ReqError)
deriving DecidableEq, Repr

/-- What a single attempt contributes: the parsed JSON on success, the
thrown error object otherwise. -/
def attemptOutcome : Attempt → Outcome
  | .ok v => .success v
  | .httpErr s st bt => .failure (httpErrorOf s st bt)
  | .netErr m => .failure ⟨none, m⟩

/-- The retry guard of `req`:
`err?.status === 502 || err?.status === 503 || err?.status === 504`. -/
def isTransient (e : ReqError) : Bool :=
  e.status = some 502 || e.status = some 503 || e.status = some 504

/-- Body of `req`, with the successive attempt results of the environment
supplied as a function of the attempt index.  Mirrors the `catch` branch: retry only
while `retries > 0` and the error is transient, with `retries - 1`.
Returns the surfaced outcome and the number of attempts made. -/
def reqFrom (attempts : Nat → Attempt) : Nat → Nat → Outcome × Nat
  | i, retries =>
    match attemptOutcome (attempts i) with
    | .success v => (.success v, 1)
    | .failure e =>
      match retries with
      | 0 => (.failure e, 1)
      | r + 1 =>
        if isTransient e then
          let rest := reqFrom attempts (i + 1) r
          (rest.1, rest.2 + 1)
        else
          (.failure e, 1)

/-- A `req` call with the default retry budget (`retries = 1`). -/
def req (attempts : Nat → Attempt) : Outcome × Nat :=
  reqFrom attempts 0 1

/-! ## Query building (`getTickets` in `frontend/public/assets/index.js`)

`getTickets(token, params)` builds
`new URLSearchParams({...params, bucketed: params.bucketed !== undefined ?
String(params.bucketed) : "true"})`.  Params are embedded with the
distinguished `bucketed` key separated from the remaining entries
(`extra` holds no `bucketed` key); the query is modelled as the ordered
key/value pairs before percent-encoding. -/

structure Params where
  bucketed : Option Bool
  extra : List (String × String)
deriving DecidableEq, Repr

/-- Stringification `String(b)` of a JS boolean. -/
def jsString (b : Bool) : String :=
  if b then "true" else "false"

/-- The key/value pairs of the `getTickets` query string: `params`
spread first, then the `bucketed` entry, defaulted to `"true"` when the
caller supplied none. -/
def getTicketsQueryPairs (p : Params) : List (String × String) :=
  p.extra ++
    [("bucketed", match p.bucketed with
      | some b => jsString b
      | none => "true")]

/-- Default parameters: `refresh()` and the three mutations call `refresh`
with `params = {}`. -/
def defaultParams : Params := ⟨none, []⟩

/-! ## Ticket collection hook (`frontend/hooks/useTickets.js`) -/

structure MeetingWindow where
  start : String
  stop : String
deriving DecidableEq, Repr

structure Ticket where
  id : Nat
  subject : String
  group : String
  status : String
  assignee_id : Option Nat
deriving DecidableEq, Repr

/-- The `/api/tickets` response consumed as `data.rows || []`. -/
structure TicketsResp where
  rows : Option (List Ticket)
deriving DecidableEq, Repr

/-- State cells of the hook: `meetingWindow`, `rows`, `loading`, `err`. -/
structure TicketsState where
  meetingWindow : Option MeetingWindow
  rows : List Ticket
  loading : Bool
  err : String
deriving DecidableEq, Repr

/-- Initial `useState` values of the hook. -/
def initialTicketsState : TicketsState :=
  ⟨none, [], true, ""⟩

/-- A settled promise: the (abstract, monotone) instant at which the
underlying gateway read settles, and its result. -/
structure Settled (α : Type) where
  time : Nat
  result : Except ReqError α
deriving Repr

/-- Semantics of `Promise.all` over the two reads of `refresh`: fulfils
once both have fulfilled (the later instant); rejects with the first
rejection, at the instant of that rejection, without waiting for the
other promise. -/
def promiseAll2 {α β : Type} (a : Settled α) (b : Settled β) :
    Settled (α × β) :=
  match a.result, b.result with
  | .ok x, .ok y => ⟨max a.time b.time, .ok (x, y)⟩
  | .error e, .ok _ => ⟨a.time, .error e⟩
  | .ok _, .error e => ⟨b.time, .error e⟩
  | .error e₁, .error e₂ =>
    if a.time ≤ b.time then ⟨a.time, .error e₁⟩ else ⟨b.time, .error e₂⟩

/-- Observable steps of the hook: state-cell writes and gateway calls,
in program order. -/
inductive HookEvent where
  | setLoading (b : Bool)
  | setErr (m : String)
  | setMeetingWindow (mw : Option MeetingWindow)
  | setRows (rows : List Ticket)
  | callMeetingWindow
  | callGetTickets (p : Params)
  | callPatchTicket (id : Nat) (body : JsVal)
  | callAddComment (id : Nat) (body : String) (isPublic : Bool)
deriving DecidableEq, Repr

/-- Which events hit the network (issue a Gateway request). -/
def HookEvent.isGatewayCall : HookEvent → Bool
  | .callMeetingWindow => true
  | .callGetTickets _ => true
  | .callPatchTicket _ _ => true
  | .callAddComment _ _ _ => true
  | _ => false

/-- The `catch` branch of `refresh`: `e?.status` present gives
`Error {status}: {message || "Unknown error"}`, otherwise
`e.message || String(e)` (the thrown plain object stringifies to
`"[object Object]"`). -/
def refreshErrMsg (e : ReqError) : String :=
  match e.status with
  | some s =>
    "Error " ++ toString s ++ ": " ++
      (if e.message = "" then "Unknown error" else e.message)
  | none => if e.message = "" then "[object Object]" else e.message

/-- The event trace of one `refresh(params)` call, given the settled
results of its two reads: set loading, clear the error, start both reads
(before consuming either result), then either commit both payloads or
record the error, and finally clear loading. -/
def refreshEvents (params : Params) (mw : Settled MeetingWindow)
    (tk : Settled TicketsResp) : List HookEvent :=
  [.setLoading true, .setErr "", .callMeetingWindow, .callGetTickets params] ++
    (match (promiseAll2 mw tk).result with
      | .ok (m, d) => [.setMeetingWindow (some m), .setRows (d.rows.getD [])]
      | .error e => [.setErr (refreshErrMsg e)]) ++
    [.setLoading false]

/-- Instant at which the `finally` clause of `refresh` runs
`setLoading(false)`: when `Promise.all` of the two reads settles. -/
def refreshClearTime (mw : Settled MeetingWindow)
    (tk : Settled TicketsResp) : Nat :=
  (promiseAll2 mw tk).time

/-- Effect of one hook event on the state cells. -/
def applyEvent (st : TicketsState) : HookEvent → TicketsState
  | .setLoading b => { st with loading := b }
  | .setErr m => { st with err := m }
  | .setMeetingWindow m => { st with meetingWindow := m }
  | .setRows r => { st with rows := r }
  | _ => st

def runEvents (st : TicketsState) (evs : List HookEvent) : TicketsState :=
  evs.foldl applyEvent st

/-- The state after one `refresh(params)` call. -/
def refreshRun (st : TicketsState) (params : Params)
    (mw : Settled MeetingWindow) (tk : Settled TicketsResp) : TicketsState :=
  runEvents st (refreshEvents params mw tk)

/-- Message `e.message || fallback` built in the mutation `catch` branches. -/
def mutationFailErr (e : ReqError) (fallback : String) : String :=
  if e.message = "" then fallback else e.message

/-- The PATCH body built by `updateStatus`: `{ status }`. -/
def updateStatusBody (status : String) : JsVal :=
  .objCons "status" (.str status) .objNil

/-- PATCH body built by `reassign(id, assignee_id)` in the hook:
`{ assignee_id }` — whatever value the caller passed as second argument
becomes the `assignee_id` property. -/
def reassignBody (assignee_id : JsVal) : JsVal :=
  .objCons "assignee_id" assignee_id .objNil

/-- Event trace of `updateStatus(id, status)`: the PATCH, then on
success `refresh()` (default params), on failure
`setErr(e.message || "Failed to update status")`. -/
def updateStatusEvents (id : Nat) (status : String)
    (patchResult : Except ReqError Unit) (mw : Settled MeetingWindow)
    (tk : Settled TicketsResp) : List HookEvent :=
  .callPatchTicket id (updateStatusBody status) ::
    match patchResult with
    | .ok _ => refreshEvents defaultParams mw tk
    | .error e => [.setErr (mutationFailErr e "Failed to update status")]

/-- Event trace of `reassign(id, assignee_id)`: the PATCH with body
`{ assignee_id }`, then on success `refresh()` (default params), on
failure `setErr(e.message || "Failed to reassign ticket")`. -/
def reassignEvents (id : Nat) (assigneeArg : JsVal)
    (patchResult : Except ReqError Unit) (mw : Settled MeetingWindow)
    (tk : Settled TicketsResp) : List HookEvent :=
  .callPatchTicket id (reassignBody assigneeArg) ::
    match patchResult with
    | .ok _ => refreshEvents defaultParams mw tk
    | .error e => [.setErr (mutationFailErr e "Failed to reassign ticket")]

/-- Event trace of `addNote(id, body, isPublic)`: the POST (issued
unconditionally — the hook inspects `body` nowhere), then on success
`refresh()` (default params), on failure
`setErr(e.message || "Failed to add note")`. -/
def addNoteEvents (id : Nat) (body : String) (isPublic : Bool)
    (postResult : Except ReqError Unit) (mw : Settled MeetingWindow)
    (tk : Settled TicketsResp) : List HookEvent :=
  .callAddComment id body isPublic ::
    match postResult with
    | .ok _ => refreshEvents defaultParams mw tk
    | .error e => [.setErr (mutationFailErr e "Failed to add note")]

/-- State after `updateStatus(id, status)`. -/
def updateStatusRun (st : TicketsState) (id : Nat) (status : String)
    (patchResult : Except ReqError Unit) (mw : Settled MeetingWindow)
    (tk : Settled TicketsResp) : TicketsState :=
  runEvents st (updateStatusEvents id status patchResult mw tk)

/-- State after `reassign(id, assigneeArg)`. -/
def reassignRun (st : TicketsState) (id : Nat) (assigneeArg : JsVal)
    (patchResult : Except ReqError Unit) (mw : Settled MeetingWindow)
    (tk : Settled TicketsResp) : TicketsState :=
  runEvents st (reassignEvents id assigneeArg patchResult mw tk)

/-- State after `addNote(id, body, isPublic)`. -/
def addNoteRun (st : TicketsState) (id : Nat) (body : String)
    (isPublic : Bool) (postResult : Except ReqError Unit)
    (mw : Settled MeetingWindow) (tk : Settled TicketsResp) : TicketsState :=
  runEvents st (addNoteEvents id body isPublic postResult mw tk)

/-! ## Row reassignment workflow (`TicketRow.jsx`) -/

/-- An agent candidate as returned by `/api/users`. -/
structure User where
  id : Nat
  name : String
  group_id : String
deriving DecidableEq, Repr

/-- Steps of the assignee `onChange` handler, in program order:
local state writes and the `onReassign` callback invocation (which the
Dashboard wires to `reassign` of the hook). -/
inductive RowAction where
  | setAssignee (v : String)
  | setGroup (g : String)
  | callReassign (ticketId : Nat) (arg : JsVal)
deriving DecidableEq, Repr

/-- The argument object `TicketRow` builds when the selected candidate
was found in the loaded list:
`{ assignee_id: Number(selected.id), group_id: selected.group_id }`. -/
def rowReassignArgFound (u : User) : JsVal :=
  .objCons "assignee_id" (.num u.id)
    (.objCons "group_id" (.str u.group_id) .objNil)

/-- The fallback argument object: `{ assignee_id: Number(newAssignee) }`. -/
def rowReassignArgFallback (newAssignee : String) : JsVal :=
  .objCons "assignee_id" (jsNumber newAssignee) .objNil

/-- The assignee-select `onChange` handler of `TicketRow`:
`setAssignee(newAssignee)`; when the value is non-empty, look the
candidate up with `users.find(u => String(u.id) === newAssignee)`; if
found, `setGroup(selected.group_id)` then call `onReassign` with both
fields; otherwise call `onReassign` with only the assignee id. -/
def assigneeOnChange (users : List User) (ticketId : Nat)
    (newAssignee : String) : List RowAction :=
  .setAssignee newAssignee ::
    (if newAssignee = "" then []
     else
       match users.find? (fun u => toString u.id = newAssignee) with
       | some u =>
         [.setGroup u.group_id,
          .callReassign ticketId (rowReassignArgFound u)]
       | none =>
         [.callReassign ticketId (rowReassignArgFallback newAssignee)])

/-- JS `String.prototype.trim()`: drop leading and trailing whitespace. -/
def jsTrim (s : String) : String :=
  (((s.data.dropWhile Char.isWhitespace).reverse.dropWhile
      Char.isWhitespace).reverse).asString

/-- Behaviour of the Add button of `NotesEditor`: submit
`(text.trim(), isPublic)` only
when `text.trim()` is truthy (non-empty); otherwise do nothing — no
submission, and no error of any kind is raised. -/
def notesEditorSubmit (text : String) (isPublic : Bool) :
    Option (String × Bool) :=
  if jsTrim text = "" then none else some (jsTrim text, isPublic)

/-! ## Helper lemmas -/

/-- A string append whose left part is non-empty is non-empty. -/
theorem append_ne_empty_left (s t : String) (h : s ≠ "") : s ++ t ≠ "" := by
  intro hc
  apply h
  have hd := congrArg String.data hc
  rw [String.data_append] at hd
  have h2 : s.data = [] := (List.append_eq_nil.mp hd).1
  apply String.ext
  simpa using h2

/-- The message `refresh` stores on a failed read is never empty. -/
theorem refreshErrMsg_ne_empty (e : ReqError) : refreshErrMsg e ≠ "" := by
  cases e with
  | mk status message =>
    cases status with
    | some s =>
      simp only [refreshErrMsg]
      exact append_ne_empty_left _ _
        (append_ne_empty_left _ _ (append_ne_empty_left _ _ (by decide)))
    | none =>
      simp only [refreshErrMsg]
      by_cases hm : message = ""
      · simp only [if_pos hm]; decide
      · simp only [if_neg hm]; exact hm

/-! ## Claims -/

/-- Claim C2: for a Gateway call with the default retry budget, a first
attempt failing with a transient status (502/503/504) is followed by
exactly one retry — two attempts in total, never three — and the outcome
of the second attempt (its success, or its failure, transient or not) is
what the caller observes; a first attempt failing any other way (404 or
any 4xx, a timeout, a network error with no status) is never retried and
its failure propagates immediately after exactly one attempt. -/
theorem req_retry_law (attempts : Nat → Attempt) (e : ReqError)
    (h : attemptOutcome (attempts 0) = .failure e) :
    (isTransient e = true → req attempts = (attemptOutcome (attempts 1), 2)) ∧
    (isTransient e = false → req attempts = (.failure e, 1)) := by
  constructor
  · intro ht
    unfold req reqFrom
    rw [h]
    simp only [ht, if_true]
    unfold reqFrom
    cases h1 : attemptOutcome (attempts 1) <;> simp
  · intro ht
    unfold req reqFrom
    rw [h]
    simp [ht]

/-- Witness for C2: a call failing 503 twice surfaces the second failure
after exactly 2 attempts; a call failing 404 propagates after exactly 1
attempt. -/
theorem req_retry_law_witness :
    req (fun _ => Attempt.httpErr 503 "Service Unavailable" (some "busy")) =
      (.failure ⟨some 503, "busy"⟩, 2) ∧
    req (fun _ => Attempt.httpErr 404 "Not Found" (some "missing")) =
      (.failure ⟨some 404, "missing"⟩, 1) := by
  refine ⟨?_, ?_⟩
  · have h := (req_retry_law
      (fun _ => Attempt.httpErr 503 "Service Unavailable" (some "busy"))
      ⟨some 503, "busy"⟩ (by decide)).1 (by decide)
    rw [h]
    decide
  · exact (req_retry_law
      (fun _ => Attempt.httpErr 404 "Not Found" (some "missing"))
      ⟨some 404, "missing"⟩ (by decide)).2 (by decide)

/-- Claim C6, counterexample: a non-success response whose body text is
read successfully but is empty produces the detail text literal
"Request failed" — neither the body text nor the status line — refuting
the claim that the detail always equals the body text when a body is
available and the status line otherwise. -/
theorem req_nonok_empty_body_cex :
    req (fun _ => .httpErr 404 "Not Found" (some "")) =
      (.failure ⟨some 404, "Request failed"⟩, 1) ∧
    "Request failed" ≠ "" ∧ "Request failed" ≠ "Not Found" ∧
    "Request failed" ≠ "404 Not Found" := by decide

/-- Claim C6, amended: a Gateway call receiving a non-success response
fails with an error carrying the status code of the response, and a
detail text equal to the body text when the body read succeeds and is
non-empty, equal to the status text when the body read throws and the
status text is non-empty, and equal to the literal "Request failed"
otherwise (in particular when the body reads as the empty string). -/
theorem req_nonok_error_shape (s : Nat) (st : String) (bt : Option String) :
    attemptOutcome (.httpErr s st bt) =
      .failure ⟨some s,
        match bt with
        | some t => if t = "" then "Request failed" else t
        | none => if st = "" then "Request failed" else st⟩ := by
  cases bt <;> simp [attemptOutcome, httpErrorOf]

/-- Claim C3, counterexample: `addNote(7, "", false)` (a body trimming
to empty) does issue a network call — the `addComment` POST is the very
first step — and surfaces no Validation error (the error cell stays
empty on success), refuting the claim that an empty-trimming body never
reaches the network and synchronously yields a local Validation error. -/
theorem addNote_empty_body_cex :
    jsTrim "" = "" ∧
    (addNoteEvents 7 "" false (.ok ()) ⟨1, .ok ⟨"a", "b"⟩⟩
        ⟨1, .ok ⟨some []⟩⟩).head? = some (.callAddComment 7 "" false) ∧
    HookEvent.isGatewayCall (.callAddComment 7 "" false) = true ∧
    (addNoteRun initialTicketsState 7 "" false (.ok ()) ⟨1, .ok ⟨"a", "b"⟩⟩
        ⟨1, .ok ⟨some []⟩⟩).err = "" := by decide

/-- Claim C3, amended: `addNote` itself performs no validation — its
first step is always the `addComment` network call, whatever the body —
and the empty-body guard lives only in `NotesEditor`, whose Add button
submits the trimmed text exactly when it is non-empty and otherwise does
nothing at all (no submission and no error surfaced). -/
theorem addNote_no_local_validation (id : Nat) (body : String)
    (isPublic : Bool) (pr : Except ReqError Unit)
    (mw : Settled MeetingWindow) (tk : Settled TicketsResp) :
    (addNoteEvents id body isPublic pr mw tk).head? =
      some (.callAddComment id body isPublic) ∧
    HookEvent.isGatewayCall (.callAddComment id body isPublic) = true ∧
    (∀ text isP, jsTrim text = "" → notesEditorSubmit text isP = none) ∧
    (∀ text isP, jsTrim text ≠ "" →
      notesEditorSubmit text isP = some (jsTrim text, isP)) := by
  refine ⟨rfl, rfl, ?_, ?_⟩
  · intro text isP h
    simp [notesEditorSubmit, h]
  · intro text isP h
    simp [notesEditorSubmit, h]

/-- Witness for C3 (amended): whitespace-only text is not submitted;
text with surrounding blanks is submitted trimmed. -/
theorem addNote_no_local_validation_witness :
    notesEditorSubmit "   " true = none ∧
    notesEditorSubmit " hi " false = some ("hi", false) := by
  refine ⟨?_, ?_⟩
  · exact (addNote_no_local_validation 1 "" false (.ok ()) ⟨1, .ok ⟨"a", "b"⟩⟩
      ⟨1, .ok ⟨some []⟩⟩).2.2.1 "   " true (by decide)
  · exact (addNote_no_local_validation 1 "" false (.ok ()) ⟨1, .ok ⟨"a", "b"⟩⟩
      ⟨1, .ok ⟨some []⟩⟩).2.2.2 " hi " false (by decide)

/-- Claim C4, counterexample: with the meeting-window read rejecting at
instant 1 and the ticket read fulfilling at instant 5, `Promise.all`
short-circuits and the `finally` clause clears the loading flag at
instant 1 — before the ticket read has settled — refuting the claim that
loading is never cleared until both reads have settled. -/
theorem refresh_clear_before_settle_cex :
    refreshClearTime ⟨1, .error ⟨some 500, "boom"⟩⟩ ⟨5, .ok ⟨some []⟩⟩ = 1 ∧
    (1 : Nat) < 5 ∧
    (refreshRun initialTicketsState defaultParams
        ⟨1, .error ⟨some 500, "boom"⟩⟩ ⟨5, .ok ⟨some []⟩⟩).loading = false := by
  decide

/-- Claim C4, amended: every `refresh(filterParams)` issues the
meeting-window read and the ticket read before consuming either result;
when both succeed, loading is cleared only once both have settled (at
the later instant) and both payloads are committed with an empty error;
when either read fails, loading is cleared at the first rejection
(`Promise.all` short-circuits, possibly before the other read settles),
the previously held ticket list is left completely unchanged, and a
non-empty error message is surfaced. -/
theorem refresh_contract (st : TicketsState) (params : Params)
    (mw : Settled MeetingWindow) (tk : Settled TicketsResp) :
    (refreshEvents params mw tk).take 4 =
      [.setLoading true, .setErr "", .callMeetingWindow,
       .callGetTickets params] ∧
    (refreshRun st params mw tk).loading = false ∧
    (∀ m d, mw.result = .ok m → tk.result = .ok d →
      refreshClearTime mw tk = max mw.time tk.time ∧
      refreshRun st params mw tk =
        { st with meetingWindow := some m, rows := d.rows.getD [],
                  loading := false, err := "" }) ∧
    (∀ e, (promiseAll2 mw tk).result = .error e →
      refreshRun st params mw tk =
        { st with loading := false, err := refreshErrMsg e } ∧
      refreshErrMsg e ≠ "") := by
  refine ⟨?_, ?_, ?_, ?_⟩
  · simp [refreshEvents]
  · cases hr : (promiseAll2 mw tk).result with
    | ok p =>
      simp [refreshRun, refreshEvents, runEvents, applyEvent, hr]
    | error e =>
      simp [refreshRun, refreshEvents, runEvents, applyEvent, hr]
  · intro m d hm hd
    have hall : promiseAll2 mw tk = ⟨max mw.time tk.time, .ok (m, d)⟩ := by
      simp [promiseAll2, hm, hd]
    refine ⟨by simp [refreshClearTime, hall], ?_⟩
    simp [refreshRun, refreshEvents, runEvents, applyEvent, hall]
  · intro e he
    refine ⟨?_, refreshErrMsg_ne_empty e⟩
    simp [refreshRun, refreshEvents, runEvents, applyEvent, he]

/-- Witness for C4 (amended): a successful refresh commits both payloads
and clears loading at the later settle instant; a refresh whose
meeting-window read fails leaves a previously held row untouched. -/
theorem refresh_contract_witness :
    refreshRun initialTicketsState defaultParams
        ⟨1, .ok ⟨"2025-09-01", "2025-09-15"⟩⟩ ⟨2, .ok ⟨some []⟩⟩ =
      ⟨some ⟨"2025-09-01", "2025-09-15"⟩, [], false, ""⟩ ∧
    refreshClearTime ⟨1, .ok ⟨"2025-09-01", "2025-09-15"⟩⟩
      ⟨2, .ok ⟨some []⟩⟩ = 2 ∧
    (refreshRun ⟨none, [⟨9, "s", "g", "open", none⟩], false, ""⟩ defaultParams
        ⟨1, .error ⟨some 500, "boom"⟩⟩ ⟨2, .ok ⟨some []⟩⟩).rows =
      [⟨9, "s", "g", "open", none⟩] := by
  have h1 := (refresh_contract initialTicketsState defaultParams
      ⟨1, .ok ⟨"2025-09-01", "2025-09-15"⟩⟩ ⟨2, .ok ⟨some []⟩⟩).2.2.1
      ⟨"2025-09-01", "2025-09-15"⟩ ⟨some []⟩ rfl rfl
  have h2 := (refresh_contract ⟨none, [⟨9, "s", "g", "open", none⟩], false, ""⟩
      defaultParams ⟨1, .error ⟨some 500, "boom"⟩⟩ ⟨2, .ok ⟨some []⟩⟩).2.2.2
      ⟨some 500, "boom"⟩ rfl
  refine ⟨h1.2, by decide, ?_⟩
  rw [h2.1]

/-- Claim C5, counterexample: a refresh failure stores
"Error 500: boom" in the error cell; a subsequent failed `addNote`
overwrites that very cell with "nope" — refuting the claim that mutation
failures live in a channel distinct from the refresh error channel and
never overwrite it. -/
theorem err_channel_shared_cex :
    (refreshRun initialTicketsState defaultParams
        ⟨1, .error ⟨some 500, "boom"⟩⟩ ⟨2, .ok ⟨some []⟩⟩).err =
      "Error 500: boom" ∧
    (addNoteRun (refreshRun initialTicketsState defaultParams
        ⟨1, .error ⟨some 500, "boom"⟩⟩ ⟨2, .ok ⟨some []⟩⟩) 7 "note" false
        (.error ⟨some 500, "nope"⟩) ⟨3, .ok ⟨"a", "b"⟩⟩
        ⟨4, .ok ⟨some []⟩⟩).err = "nope" ∧
    "nope" ≠ "Error 500: boom" := by decide

/-- Claim C5, amended: the three mutation operations and `refresh` all
share the single `err` cell — a failed mutation rewrites it with the
mutation message (leaving the other cells, in particular the row list,
untouched), and the error cell after a `refresh` is determined solely by
the outcome of that refresh, overwriting whatever a mutation stored. -/
theorem err_channel_shared_amended (st : TicketsState) (e : ReqError)
    (params : Params) (mw : Settled MeetingWindow) (tk : Settled TicketsResp)
    (id : Nat) (status body : String) (isPublic : Bool) (arg : JsVal) :
    updateStatusRun st id status (.error e) mw tk =
      { st with err := mutationFailErr e "Failed to update status" } ∧
    reassignRun st id arg (.error e) mw tk =
      { st with err := mutationFailErr e "Failed to reassign ticket" } ∧
    addNoteRun st id body isPublic (.error e) mw tk =
      { st with err := mutationFailErr e "Failed to add note" } ∧
    (refreshRun st params mw tk).err =
      (match (promiseAll2 mw tk).result with
        | .ok _ => ""
        | .error e2 => refreshErrMsg e2) := by
  refine ⟨rfl, rfl, rfl, ?_⟩
  cases hr : (promiseAll2 mw tk).result with
  | ok p => simp [refreshRun, refreshEvents, runEvents, applyEvent, hr]
  | error e2 => simp [refreshRun, refreshEvents, runEvents, applyEvent, hr]

/-- Claim C7: when the selected candidate is found in the loaded agent
list, the handler sets the locally displayed group to the group recorded
in that same candidate record strictly before invoking the reassign
callback, and the payload it hands over carries exactly that group and
that candidate id — so the optimistic value satisfies
group-matches-assignee by construction. -/
theorem row_optimistic_group_sync (users : List User) (ticketId : Nat)
    (s : String) (u : User) (hs : s ≠ "")
    (h : users.find? (fun u => toString u.id = s) = some u) :
    assigneeOnChange users ticketId s =
      [.setAssignee s, .setGroup u.group_id,
       .callReassign ticketId (rowReassignArgFound u)] ∧
    (rowReassignArgFound u).lookup "group_id" = some (.str u.group_id) ∧
    (rowReassignArgFound u).lookup "assignee_id" = some (.num u.id) := by
  refine ⟨?_, ?_, ?_⟩
  · simp [assigneeOnChange, hs, h]
  · simp [rowReassignArgFound, JsVal.lookup]
  · simp [rowReassignArgFound, JsVal.lookup]

/-- Witness for C7: selecting candidate 7 (group AIMS) emits the group
update before the reassign call. -/
theorem row_optimistic_group_sync_witness :
    assigneeOnChange [⟨7, "Ann", "AIMS"⟩] 42 "7" =
      [.setAssignee "7", .setGroup "AIMS",
       .callReassign 42 (rowReassignArgFound ⟨7, "Ann", "AIMS"⟩)] := by
  exact (row_optimistic_group_sync [⟨7, "Ann", "AIMS"⟩] 42 "7"
    ⟨7, "Ann", "AIMS"⟩ (by decide) (by decide)).1

/-- Claim C8: when the selected candidate id is not found in the loaded
agent list, the handler leaves the locally displayed group untouched (no
group update is emitted) and the payload sent towards the backend holds
only the assignee id — no group field appears in it, nor in the PATCH
body the hook then builds from it. -/
theorem row_fallback_assignee_only (users : List User) (ticketId : Nat)
    (s : String) (hs : s ≠ "")
    (h : users.find? (fun u => toString u.id = s) = none) :
    assigneeOnChange users ticketId s =
      [.setAssignee s, .callReassign ticketId (rowReassignArgFallback s)] ∧
    (∀ g, RowAction.setGroup g ∉ assigneeOnChange users ticketId s) ∧
    (rowReassignArgFallback s).lookup "group_id" = none ∧
    (reassignBody (rowReassignArgFallback s)).lookup "group_id" = none := by
  have h1 : assigneeOnChange users ticketId s =
      [.setAssignee s, .callReassign ticketId (rowReassignArgFallback s)] := by
    simp [assigneeOnChange, hs, h]
  refine ⟨h1, ?_, ?_, ?_⟩
  · intro g
    rw [h1]
    simp
  · simp [rowReassignArgFallback, JsVal.lookup]
  · simp [reassignBody, rowReassignArgFallback, JsVal.lookup]

/-- Witness for C8: selecting an id absent from the loaded list emits no
group update and only the assignee-id payload. -/
theorem row_fallback_assignee_only_witness :
    assigneeOnChange [] 42 "99" =
      [.setAssignee "99", .callReassign 42 (rowReassignArgFallback "99")] := by
  exact (row_fallback_assignee_only [] 42 "99" (by decide) (by decide)).1

/-- Claim C1, evaluated at the failing input: the row handler passes the
object with both fields to the reassign callback, but the hook treats
that whole object as the bare assignee id and wraps it, so the PATCH
body actually sent is the nested
`{ assignee_id: { assignee_id: 7, group_id: "AIMS" } }` — it has no
top-level `group_id` field at all and its top-level `assignee_id` is not
the candidate id — contradicting both the claim and the documented API
contract of the repository (a flat body with numeric `assignee_id` and
`group_id`). -/
theorem reassign_patch_body_nested_cex :
    assigneeOnChange [⟨7, "Ann", "AIMS"⟩] 42 "7" =
      [.setAssignee "7", .setGroup "AIMS",
       .callReassign 42 (rowReassignArgFound ⟨7, "Ann", "AIMS"⟩)] ∧
    (reassignEvents 42 (rowReassignArgFound ⟨7, "Ann", "AIMS"⟩) (.ok ())
        ⟨1, .ok ⟨"a", "b"⟩⟩ ⟨1, .ok ⟨some []⟩⟩).head? =
      some (.callPatchTicket 42
        (.objCons "assignee_id"
          (.objCons "assignee_id" (.num 7)
            (.objCons "group_id" (.str "AIMS") .objNil)) .objNil)) ∧
    (reassignBody (rowReassignArgFound ⟨7, "Ann", "AIMS"⟩)).lookup
      "group_id" = none ∧
    (reassignBody (rowReassignArgFound ⟨7, "Ann", "AIMS"⟩)).lookup
      "assignee_id" ≠ some (.num 7) := by decide

/-- Claim C9, counterexample: suppose the most recent refresh used
`{bucketed: false}`; the refresh triggered by a successful
`updateStatus` reads tickets with the empty default params — whose query
carries `bucketed=true` — and with no call carrying the last-used
params, refuting the claim that the post-mutation re-fetch preserves the
last-used filter. -/
theorem updateStatus_refresh_params_cex :
    (HookEvent.callGetTickets defaultParams) ∈
      updateStatusEvents 42 "solved" (.ok ()) ⟨1, .ok ⟨"a", "b"⟩⟩
        ⟨1, .ok ⟨some []⟩⟩ ∧
    (HookEvent.callGetTickets ⟨some false, []⟩) ∉
      updateStatusEvents 42 "solved" (.ok ()) ⟨1, .ok ⟨"a", "b"⟩⟩
        ⟨1, .ok ⟨some []⟩⟩ ∧
    defaultParams ≠ (⟨some false, []⟩ : Params) ∧
    getTicketsQueryPairs defaultParams = [("bucketed", "true")] ∧
    getTicketsQueryPairs ⟨some false, []⟩ = [("bucketed", "false")] := by
  decide

/-- Claim C9, amended: after every successful `updateStatus` write, a
refresh is triggered with the empty default params — the hook stores no
last-used filter — so the post-mutation ticket read always carries the
default `bucketed=true`, whatever params the most recent refresh used. -/
theorem updateStatus_success_refreshes_default (id : Nat) (status : String)
    (mw : Settled MeetingWindow) (tk : Settled TicketsResp) :
    updateStatusEvents id status (.ok ()) mw tk =
      .callPatchTicket id (updateStatusBody status) ::
        refreshEvents defaultParams mw tk ∧
    defaultParams.bucketed = none ∧
    ("bucketed", "true") ∈ getTicketsQueryPairs defaultParams := by
  exact ⟨rfl, rfl, by decide⟩

/-- Claim C10: a `getTickets` call whose params carry no `bucketed` key
always puts `bucketed=true` in the query, and when `bucketed` is present
its JS string form is forwarded unchanged. -/
theorem getTickets_bucketed_default (p : Params) :
    (p.bucketed = none →
      getTicketsQueryPairs p = p.extra ++ [("bucketed", "true")]) ∧
    (∀ b, p.bucketed = some b →
      getTicketsQueryPairs p = p.extra ++ [("bucketed", jsString b)]) := by
  constructor
  · intro h
    simp [getTicketsQueryPairs, h]
  · intro b h
    simp [getTicketsQueryPairs, h]

/-- Witness for C10: a params object without `bucketed` yields
`bucketed=true`; one carrying `bucketed: false` yields
`bucketed=false`. -/
theorem getTickets_bucketed_default_witness :
    getTicketsQueryPairs ⟨none, [("status", "open")]⟩ =
      [("status", "open"), ("bucketed", "true")] ∧
    getTicketsQueryPairs ⟨some false, []⟩ = [("bucketed", "false")] := by
  refine ⟨?_, ?_⟩
  · exact (getTickets_bucketed_default ⟨none, [("status", "open")]⟩).1 rfl
  · exact (getTickets_bucketed_default ⟨some false, []⟩).2 false rfl

end ZendeskApp
